import Mathlib

/-!
# Servelet page-registry verification

Shallow embedding of the Servelet Node.js module (the page-registry,
render-engine, and facade subsystems) and proofs about the claims of its
specification.

The repository contains two near-duplicate implementation snapshots:
`src/unnamed/part_000` (defaults `views`, `views/partials`; readiness queue
in `API.serve`) and `src/index.js` (defaults `views`, `partials`; page-name
prefixing via `getPages`, subdirectory recursion, callback-mandatory
`API.serve`).  Definitions below are translated from `src/unnamed/part_000`
unless their name carries an `Idx` suffix, in which case they are translated
from `src/index.js`.

Modelling conventions:
* JS exceptions are `Except JsErr`; a function that can throw to its caller
  returns an `Except`, a function that catches internally returns plain data.
* JS objects holding string data are modelled as functions
  `String → Option String` (absent key = absent property); `Object.assign`
  is pointwise right-biased merge over the extra object's keys.
* Asynchronous I/O results (directory listings, file reads, `require`) are
  supplied as explicit inputs; callbacks are replayed in a fixed sequential
  schedule (views root first, files in listing order).  All facts proved
  about completion counting are schedule-independent counts.
* User-supplied callbacks are identified by numeric ids; invoking one is
  recorded in a log inside the state.  Invoking a non-function value (as
  happens when `Array.prototype.forEach` supplies an array index in the
  callback position) throws a `TypeError`.
-/

deriving instance DecidableEq for Except

namespace Servelet

/-- Auxiliary recursion for `jsSplit`, over the character list with the
accumulator of the current segment (in reverse). -/
def jsSplitAux (sep : Char) : List Char → List Char → List String
  | [], acc => [String.mk acc.reverse]
  | c :: cs, acc =>
      if c = sep then String.mk acc.reverse :: jsSplitAux sep cs []
      else jsSplitAux sep cs (c :: acc)

/-- JS `str.split(sep)` for a one-character separator: always returns at
least one segment; `""` splits to `[""]` and a leading separator yields a
leading empty segment. -/
def jsSplit (sep : Char) (s : String) : List String :=
  jsSplitAux sep s.data []

/-- Drop the first occurrence of a character from a character list. -/
def jsDropFirst (c : Char) : List Char → List Char
  | [] => []
  | d :: ds => if d = c then ds else d :: jsDropFirst c ds

/-- JS `str.replace(pat, '')` with a plain one-character string pattern:
only the first occurrence is removed. -/
def jsReplaceFirst (c : Char) (s : String) : String :=
  String.mk (jsDropFirst c s.data)

/-- JS `str.replace(/c/g, '')` with a global one-character regex: every
occurrence is removed. -/
def jsRemoveAll (c : Char) (s : String) : String :=
  String.mk (s.data.filter (fun d => d != c))

/-- A JS error value: either an `Error` with a message (as created by
`new Error(msg)` or thrown by page code) or a `TypeError` (as raised when a
non-function is invoked). -/
inductive JsErr where
  | error (msg : String)
  | typeError (msg : String)
deriving DecidableEq, Repr

/-- A JS value that a page producer (and hence `loadPage`) can return in the
states this development reaches: a string, or `undefined` (what the
`() => {}` placeholder installed for non-callable dynamic modules returns). -/
inductive JsVal where
  | str (s : String)
  | undef
deriving DecidableEq, Repr

/-- Whether a JS value is a string. -/
def JsVal.isStr : JsVal → Bool
  | .str _ => true
  | .undef => false

/-- A JS plain object with string-valued properties, as a partial map. -/
def Fields : Type := String → Option String

/-- The empty object `{}`. -/
def Fields.empty : Fields := fun _ => none

/-- Property assignment `m[k] = v`. -/
def Fields.set (m : Fields) (k v : String) : Fields :=
  fun q => if q = k then some v else m q

/-- `Object.assign(base, extra)` (and equally `Object.assign({}, base, extra)`
observed through property reads): keys of `extra` win. -/
def Fields.assign (base extra : Fields) : Fields :=
  fun q =>
    match extra q with
    | some v => some v
    | none => base q

/-- The value configured as `options.globalData`: the code's default is the
empty string `''` (a JS primitive), but callers may configure an object. -/
inductive GVal where
  | str (s : String)
  | obj (f : Fields)

/-- Property read `g[k]` on the global-data value; reading a named
property of a primitive string yields `undefined`. -/
def GVal.getField : GVal → String → Option String
  | .str _, _ => none
  | .obj f, k => f k

/-- The request data context object.  `createDataObject` copies the caller's
fields, sets `global`, and installs the `include`/`layout` capabilities
(modelled as presence flags; their behaviour is the `include`/`layout`
functions below applied to the current instance state). -/
structure Ctx where
  fields : Fields
  global : Option GVal
  hasInclude : Bool
  hasLayout : Bool

/-- The caller-supplied plain data object with the given fields. -/
def Ctx.plain (f : Fields) : Ctx :=
  { fields := f, global := none, hasInclude := false, hasLayout := false }

/-- Read the field `k` of the context's `global` property. -/
def Ctx.globalField (c : Ctx) (k : String) : Option String :=
  match c.global with
  | some g => g.getField k
  | none => none

/-- Kind tag stored on every page entry (`loc[name]['type']`). -/
inductive EntryType where
  | static
  | dynamic
deriving DecidableEq, Repr

/-- A page entry stored in the `views` or `partials` namespace: the content
producer plus the `type` and `ext` annotations the source attaches to it. -/
structure Entry where
  producer : Ctx → Except JsErr JsVal
  type : EntryType
  ext : String

/-- A namespace mapping (the `views` or `partials` object). -/
def NsMap : Type := String → Option Entry

/-- The empty namespace. -/
def NsMap.empty : NsMap := fun _ => none

/-- Overwrite-or-insert `loc[name] = entry`. -/
def NsMap.set (m : NsMap) (k : String) (e : Entry) : NsMap :=
  fun q => if q = k then some e else m q

/-- Which of the two namespaces a scan targets (the source decides this by
comparing the directory to the remembered views/partials root; we carry the
outcome of that comparison as an explicit tag). -/
inductive NSide where
  | views
  | partials
deriving DecidableEq, Repr

/-- The options record after the constructor's `split(';')` normalization of
the extension lists. -/
structure Options where
  views : String
  partials : String
  staticExt : List String
  dynamicExt : List String
  globalData : GVal

/-- The `defaults` object of `src/unnamed/part_000` (lines 17-23), with the
extension strings already split.  Note `globalData` defaults to the empty
string `''`, not to an object. -/
def defaults : Options :=
  { views := "views"
    partials := "views/partials"
    staticExt := ["html"]
    dynamicExt := ["js"]
    globalData := GVal.str "" }

/-- The `defaults` object of `src/index.js` (lines 18-25); the `partials`
folder name is relative to the views folder there. -/
def defaultsIdx : Options :=
  { views := "views"
    partials := "partials"
    staticExt := ["html"]
    dynamicExt := ["js"]
    globalData := GVal.str "" }

/-- A queued deferred serve call (the closure pushed onto `this.serves`
captures exactly the three arguments of the original call). -/
structure PendingServe where
  page : Option String
  data : Ctx
  cb : Option Nat

/-- The mutable state of one Servelet instance.  `serveCbLog` records
invocations of user callbacks passed to `serve`; `reloadCbLog` records
invocations of user callbacks passed to `reloadStaticPage` (argument
`none` models `callback(null)`). -/
structure St where
  options : Options
  views : NsMap
  partials : NsMap
  error : Option JsErr
  warning : Option String
  ready : Bool
  serves : List PendingServe
  serveCbLog : List (Nat × JsVal)
  reloadCbLog : List (Nat × Option JsErr)

/-- The error setter (`this.error = err`); the accompanying event emission is
not modelled beyond the stored signal value. -/
def setError (st : St) (e : JsErr) : St := { st with error := some e }

/-- The warning setter (`this.warning = warn`). -/
def setWarning (st : St) (w : String) : St := { st with warning := some w }

/-- A fresh instance state over the given options, before any page has been
initialized (constructor state just after field initialization). -/
def St.fresh (opts : Options) : St :=
  { options := opts
    views := NsMap.empty
    partials := NsMap.empty
    error := none
    warning := none
    ready := false
    serves := []
    serveCbLog := []
    reloadCbLog := [] }

/-- `createDataObject` (part_000 lines 369-379): shallow copy of the caller
data plus the injected `global`, `include` and `layout` members. -/
def createDataObject (st : St) (data : Ctx) : Ctx :=
  { fields := data.fields
    global := some st.options.globalData
    hasInclude := true
    hasLayout := true }

/-- `Servelet.loadPage` (part_000 lines 288-323).  `page = none` models a
call with the argument omitted or `undefined`, so the default `'index'`
applies.  The producer is invoked inside the try/catch; a thrown error is
converted to the error signal plus a sentinel string, so `loadPage` itself
never throws. -/
def loadPage (st : St) (page : Option String) (data : Ctx) (layout : Bool) :
    JsVal × St :=
  let p := page.getD "index"
  match st.views p with
  | some entry =>
      let allData := if layout then data else createDataObject st data
      match entry.producer allData with
      | .ok v => (v, st)
      | .error err =>
          (JsVal.str ("An error has occurred within the dynamic " ++ p ++ " page."),
            setError st err)
  | none =>
      let res := "The " ++ p ++ " page could not be found."
      (JsVal.str res, setError st (JsErr.error res))

/-- The outcome of `require(dir + page.base)` for a dynamic page file:
the module loaded and exported a callable, it loaded but exported a
non-callable value, or loading threw. -/
inductive ModuleLoad where
  | callable (f : Ctx → Except JsErr JsVal)
  | notCallable
  | throws (e : JsErr)

/-- Update the namespace selected by `side` (the source's
`this[displayType]`). -/
def St.nsSet (st : St) (side : NSide) (k : String) (e : Entry) : St :=
  match side with
  | .views => { st with views := st.views.set k e }
  | .partials => { st with partials := st.partials.set k e }

/-- Read the namespace selected by `side`. -/
def St.nsGet (st : St) (side : NSide) (k : String) : Option Entry :=
  match side with
  | .views => st.views k
  | .partials => st.partials k

/-- `Servelet.initDynamicPage` (part_000 lines 232-262).  The second
component is the argument of the completion callback `cb` (an error or
`null`).  A non-callable export installs `() => {}` — a producer returning
`undefined` — and raises the warning; a load failure installs `() => ''`
and reports the error through `cb`. -/
def initDynamicPage (st : St) (side : NSide) (name ext : String)
    (mod : ModuleLoad) : St × Option JsErr :=
  match mod with
  | .callable f =>
      (st.nsSet side name { producer := f, type := .dynamic, ext := ext }, none)
  | .notCallable =>
      let st1 := setWarning st
        ("The " ++ name ++ " dynamic page did not export a module to build the page content.")
      (st1.nsSet side name
        { producer := fun _ => Except.ok JsVal.undef, type := .dynamic, ext := ext },
        none)
  | .throws e =>
      (st.nsSet side name
        { producer := fun _ => Except.ok (JsVal.str ""), type := .dynamic, ext := ext },
        some e)

/-- A directory entry as seen by the scanner: parsed file name, extension
(with the leading dot, as produced by `path.parse`), and the results the
file system / module system would deliver for it (`fs.readFile` content for
a static read, `require` outcome for a dynamic load). -/
structure FileEntry where
  name : String
  ext : String
  read : Except JsErr String
  load : ModuleLoad

/-- `Servelet.initStaticPage` (part_000 lines 207-223): read the file, then
cache a producer closing over the content; a read failure reports the error
through the completion callback and leaves the namespace untouched. -/
def initStaticPage (st : St) (side : NSide) (f : FileEntry) : St × Option JsErr :=
  match f.read with
  | .error e => (st, some e)
  | .ok content =>
      (st.nsSet side f.name
        { producer := fun _ => Except.ok (JsVal.str content)
          type := .static
          ext := f.ext },
        none)

/-- The `type` argument of `initAllPages`. -/
inductive ScanType where
  | all
  | staticOnly
  | dynamicOnly
deriving DecidableEq, Repr

/-- Dispatch for one listed file inside `scan` (part_000 lines 169-187):
classify by extension against the configured lists and run the matching
initializer, or skip.  The second component is the argument `fileComplete`
receives: `some e` means the file's initialization failed (which forwards
`e` to the overall callback and never advances the per-directory counter),
`none` means the per-directory completion counter advances by one. -/
def initFile (opts : Options) (ty : ScanType) (side : NSide) (st : St)
    (f : FileEntry) : St × Option JsErr :=
  let ext := jsReplaceFirst '.' f.ext
  if (ty == ScanType.staticOnly || ty == ScanType.all)
      && opts.staticExt.contains ext then
    initStaticPage st side f
  else if (ty == ScanType.dynamicOnly || ty == ScanType.all)
      && opts.dynamicExt.contains ext then
    initDynamicPage st side f.name f.ext f.load
  else
    (st, none)

/-- Processing of a successful directory listing: every file is dispatched;
the returned list collects, in file order, the errors forwarded to the
overall callback by failing `fileComplete` calls, and the returned number is
the final value of the `completedFiles` counter.  The source fans the file
initializations out concurrently; both the error multiset and the final
counter value are schedule-independent, so the sequential order here is a
faithful schedule. -/
def scanFiles (opts : Options) (ty : ScanType) (side : NSide) :
    St → List FileEntry → St × List JsErr × Nat
  | st, [] => (st, [], 0)
  | st, f :: fs =>
      let r1 := initFile opts ty side st f
      let r2 := scanFiles opts ty side r1.1 fs
      match r1.2 with
      | some e => (r2.1, e :: r2.2.1, r2.2.2)
      | none => (r2.1, r2.2.1, r2.2.2 + 1)

/-- One `scan(dir)` call (part_000 lines 116-193) over a directory whose
listing is `listing`: a failed `fs.readdir` forwards its error to the
overall callback and the directory never reports completion; otherwise the
directory reports completion (`++completed`) exactly when `completedFiles`
reaches the number of listed files. -/
def scanDir (opts : Options) (ty : ScanType) (side : NSide) (st : St)
    (listing : Except JsErr (List FileEntry)) : St × List JsErr × Bool :=
  match listing with
  | .error e => (st, [e], false)
  | .ok files =>
      let r := scanFiles opts ty side st files
      (r.1, r.2.1, r.2.2 == files.length)

/-- `Servelet.initAllPages` (part_000 lines 99-198): scan the views root and
the partials root with a shared completion counter (`total = 2`).  The
returned list is the sequence of arguments the overall callback `cb`
receives: one `some e` per listing or file-initialization failure, and a
final `none` (the `cb(null)` success call) exactly when both directories
report completion. -/
def initAllPages (opts : Options) (ty : ScanType) (st : St)
    (viewsListing partialsListing : Except JsErr (List FileEntry)) :
    St × List (Option JsErr) :=
  let r1 := scanDir opts ty .views st viewsListing
  let r2 := scanDir opts ty .partials r1.1 partialsListing
  (r2.1,
    r1.2.1.map some ++ r2.2.1.map some ++
      if r1.2.2 && r2.2.2 then [none] else [])

/-- Specification-side account of whether one listed file's initialization
fails, read off the classification rules and the file's I/O results. -/
def fileFailure (opts : Options) (ty : ScanType) (f : FileEntry) : Option JsErr :=
  let ext := jsReplaceFirst '.' f.ext
  if (ty == ScanType.staticOnly || ty == ScanType.all)
      && opts.staticExt.contains ext then
    match f.read with
    | .error e => some e
    | .ok _ => none
  else if (ty == ScanType.dynamicOnly || ty == ScanType.all)
      && opts.dynamicExt.contains ext then
    match f.load with
    | .throws e => some e
    | _ => none
  else
    none

/-- Specification-side account of all failures a directory contributes:
its listing error, or the failures of its files. -/
def dirFailures (opts : Options) (ty : ScanType)
    (listing : Except JsErr (List FileEntry)) : List JsErr :=
  match listing with
  | .error e => [e]
  | .ok files => files.filterMap (fileFailure opts ty)

/-- The page argument of `includePartial`: a single name or an array. -/
inductive IncludeArg where
  | one (page : String)
  | many (pages : List String)

/-- The single-name branch of `Servelet.includePartial` (part_000 lines
337-360): return the partial's content, or the empty string with the error
signal set when the name is missing or its producer throws. -/
def includePartialOne (st : St) (page : String) (data : Ctx) : JsVal × St :=
  match st.partials page with
  | some entry =>
      match entry.producer data with
      | .ok content => (content, st)
      | .error e => (JsVal.str "", setError st e)
  | none =>
      (JsVal.str "",
        setError st (JsErr.error ("Could not find the " ++ page ++ " include file.")))

/-- `Servelet.includePartial` (part_000 lines 331-362).  The array branch
runs `includePartial` once per element via `forEach`, discarding every
per-element return value, and itself returns `undefined` (the JS function
falls off the end of the array branch without a `return`). -/
def includePartial (st : St) (page : IncludeArg) (data : Ctx) : JsVal × St :=
  match page with
  | .one p => includePartialOne st p data
  | .many l =>
      (JsVal.undef, l.foldl (fun s p => (includePartialOne s p data).2) st)

/-- `Servelet.include` (part_000 lines 392-399; renamed because `include` is
a Lean keyword): merge the new data over a copy of the original context and
forward to `includePartial`. -/
def includeMethod (st : St) (data : Ctx) (page : IncludeArg) (newData : Fields) :
    JsVal × St :=
  includePartial st page { data with fields := data.fields.assign newData }

/-- The html-binding loop of `Servelet.layout` (part_000 lines 417-419):
`htmlData[pages[i]] = html[i - 1] || ''` for `i = 1 .. pages.length - 1`,
written as a recursion pairing the tail of the segment list with the html
list (a missing html element, and equally a falsy empty string, binds `''`).
Later iterations overwrite earlier bindings of the same name. -/
def bindParts : List String → List String → Fields → Fields
  | [], _, m => m
  | s :: ss, [], m => bindParts ss [] (m.set s "")
  | s :: ss, h :: hs, m => bindParts ss hs (m.set s h)

/-- What `layout` returns: the rendered layout page, or (in the degenerate
branch) the caller's html array passed back unchanged. -/
inductive LayoutRet where
  | val (v : JsVal)
  | parts (html : List String)
deriving DecidableEq, Repr

/-- The context `layout` hands to `loadPage`: the html bindings merged over
the original context's fields (the source mutates `data` in place with
`Object.assign(data, htmlData)`; the merge is observationally the written
object). -/
def layoutCtx (data : Ctx) (page : String) (html : List String) : Ctx :=
  { data with
    fields := data.fields.assign (bindParts (jsSplit ':' page).tail html Fields.empty) }

/-- `Servelet.layout` (part_000 lines 409-432).  The guard `pages && page[0]`
is truthiness of the first character, i.e. `page ≠ ""`: any nonempty spec —
including one whose leading segment is empty, such as `":body"` — takes the
binding-and-render branch, with `pages[0]` (possibly `""`) as the page name;
only the empty spec returns the html array unchanged. -/
def layout (st : St) (data : Ctx) (page : String) (html : List String) :
    LayoutRet × St :=
  let pages := jsSplit ':' page
  if page = "" then
    (LayoutRet.parts html, st)
  else
    let r := loadPage st (some (pages.headD "")) (layoutCtx data page html) true
    (LayoutRet.val r.1, r.2)

/-- `API.updateGlobalData` (part_000 lines 466-471):
`Object.assign(this[serveletKey].options.globalData, data)`.  When
`globalData` is an object it is merged in place; when it is a primitive
string (the default `''`), `Object.assign` coerces it to a fresh `String`
wrapper object, writes the properties onto that temporary wrapper, and the
wrapper is discarded, so the stored `options.globalData` is unchanged. -/
def updateGlobalData (st : St) (d : Fields) : St :=
  match st.options.globalData with
  | GVal.obj f =>
      { st with options := { st.options with globalData := GVal.obj (f.assign d) } }
  | GVal.str _ => st

/-- What a call to `API.serve` returns to its caller in part_000: the
instance (callback shape or queued call) or the page string. -/
inductive ServeRet where
  | inst
  | strv (v : JsVal)
deriving DecidableEq, Repr

/-- `API.serve` (part_000 lines 488-522).  Before readiness the call is
queued as a closure over its three arguments and the instance is returned;
after readiness the page is rendered and delivered through the callback
(logged) or as the return value, by call shape.  The `typeof data ===
'function'` overload shuffle is resolved by this signature. -/
def serve (st : St) (page : Option String) (data : Ctx) (cb : Option Nat) :
    ServeRet × St :=
  if st.ready = false then
    (ServeRet.inst, { st with serves := st.serves ++ [⟨page, data, cb⟩] })
  else
    let r := loadPage st page data false
    match cb with
    | some c =>
        (ServeRet.inst, { r.2 with serveCbLog := r.2.serveCbLog ++ [(c, r.1)] })
    | none => (ServeRet.strv r.1, r.2)

/-- `Servelet.serveAll` (part_000 line 91): `this.serves.forEach((s) => s())`.
`forEach` fixes the range of visited elements before the first call, so the
fold runs over the queue as it stood on entry; elements pushed by the
replayed calls are appended behind that range and are not visited. -/
def serveAll (st : St) : St :=
  st.serves.foldl (fun s q => (serve s q.page q.data q.cb).2) st

/-- The completion callback the constructor passes to `initAllPages`
(part_000 lines 53-59): on error, set the error signal and stop; on success,
run `serveAll()` first and set `ready = true` only afterwards. -/
def initReadyCallback (st : St) (err : Option JsErr) : St :=
  match err with
  | some e => setError st e
  | none =>
      let st1 := serveAll st
      { st1 with ready := true }

/-- `Servelet.getPages` of `src/index.js` (lines 96-105): the two namespace
keys for a page name, produced by concatenating the configured folder names
with the page name and stripping every slash. -/
def getPages (opts : Options) (page : String) : String × String :=
  (jsRemoveAll '/' (opts.views ++ page),
    jsRemoveAll '/' (opts.views ++ opts.partials ++ page))

/-- `Servelet.loadPage` of `src/index.js` (lines 334-370): identical to the
part_000 version except that the views lookup key is the prefixed
`getPages(page)[0]` while the sentinel strings still name the raw page. -/
def loadPageIdx (st : St) (page : Option String) (data : Ctx) (layout : Bool) :
    JsVal × St :=
  let p := page.getD "index"
  let fullPage := (getPages st.options p).1
  match st.views fullPage with
  | some entry =>
      let allData := if layout then data else createDataObject st data
      match entry.producer allData with
      | .ok v => (v, st)
      | .error err =>
          (JsVal.str ("An error has occurred within the dynamic " ++ p ++ " page."),
            setError st err)
  | none =>
      let res := "The " ++ p ++ " page could not be found."
      (JsVal.str res, setError st (JsErr.error res))

/-- `API.serve` of `src/index.js` (lines 537-549): after the overload
shuffle the body is the single statement
`callback(this[serveletKey].loadPage(page, data));` — the page is rendered
(argument evaluation, with its signal side effects) and then the callback is
invoked.  There is no readiness check and no return value; when no callback
was supplied, invoking `undefined` throws a `TypeError` to the caller. -/
def serveIdx (st : St) (page : Option String) (data : Ctx) (cb : Option Nat) :
    Except JsErr Unit × St :=
  let r := loadPageIdx st page data false
  match cb with
  | some c =>
      (Except.ok (), { r.2 with serveCbLog := r.2.serveCbLog ++ [(c, r.1)] })
  | none => (Except.error (JsErr.typeError "callback is not a function"), r.2)

/-- A value standing in the callback position of `reloadStaticPage`: the
caller's function, or — in the recursive array branch, where
`page.forEach(this.reloadStaticPage.bind(this))` passes each element's array
index as the second argument — a number. -/
inductive CbVal where
  | fn (id : Nat)
  | num (n : Nat)
deriving DecidableEq, Repr

/-- Invoke a reload callback value with an error-or-null argument: a
function invocation is logged; invoking a number throws a `TypeError`. -/
def invokeCb (st : St) (cb : CbVal) (arg : Option JsErr) : Except JsErr St :=
  match cb with
  | .fn id => Except.ok { st with reloadCbLog := st.reloadCbLog ++ [(id, arg)] }
  | .num _ => Except.error (JsErr.typeError "callback is not a function")

/-- A dispatched single-page static re-initialization: `initStaticPage` was
called with this namespace side and the `path.parse` of `page + entry.ext`
(so `name` and `ext` here are its `name`/`ext` components and the file read
targets `name ++ ext`), and its `fs.readFile` is pending with the given
completion callback. -/
structure ReloadTask where
  side : NSide
  name : String
  ext : String
  cb : CbVal
deriving DecidableEq, Repr

/-- The page argument of `reloadStaticPage`. -/
inductive ReloadArg where
  | noPage
  | one (p : String)
  | many (l : List String)

/-- The `typeof page === 'string'` branch of `API.reloadStaticPage`
(part_000 lines 579-607): resolve the name against the namespaces and the
static-extension list; a resolvable name dispatches one `initStaticPage`
(returned as a pending task whose completion will call `complete`, hence
`cb`); an unresolvable name invokes `cb` synchronously with a NotFound-style
error — which throws a `TypeError` if `cb` is a number, as in the array
branch. -/
def reloadOne (st : St) (p : String) (cb : CbVal) :
    Except JsErr Unit × St × List ReloadTask :=
  let ext := st.options.staticExt
  let view := st.views p
  let partialEntry := st.partials p
  match view with
  | some v =>
      if ext.contains (jsReplaceFirst '.' v.ext) then
        (Except.ok (), st, [⟨.views, p, v.ext, cb⟩])
      else
        match partialEntry with
        | some q =>
            if ext.contains (jsReplaceFirst '.' q.ext) then
              (Except.ok (), st, [⟨.partials, p, q.ext, cb⟩])
            else
              match invokeCb st cb (some (JsErr.error
                  ("Could not reload the static " ++ p ++ " page, since it was never initialized."))) with
              | .ok st1 => (Except.ok (), st1, [])
              | .error e => (Except.error e, st, [])
        | none =>
            match invokeCb st cb (some (JsErr.error
                ("Could not reload the static " ++ p ++ " page, since it was never initialized."))) with
            | .ok st1 => (Except.ok (), st1, [])
            | .error e => (Except.error e, st, [])
  | none =>
      match partialEntry with
      | some q =>
          if ext.contains (jsReplaceFirst '.' q.ext) then
            (Except.ok (), st, [⟨.partials, p, q.ext, cb⟩])
          else
            match invokeCb st cb (some (JsErr.error
                ("Could not reload the static " ++ p ++ " page, since it was never initialized."))) with
            | .ok st1 => (Except.ok (), st1, [])
            | .error e => (Except.error e, st, [])
      | none =>
          match invokeCb st cb (some (JsErr.error
              ("Could not reload the static " ++ p ++ " page, since it was never initialized."))) with
          | .ok st1 => (Except.ok (), st1, [])
          | .error e => (Except.error e, st, [])

/-- The array branch of `API.reloadStaticPage` (part_000 line 577):
`page.forEach(this.reloadStaticPage.bind(this))`.  Each element is processed
by a fresh `reloadStaticPage` call receiving the element's array index in
the callback position; a synchronous throw inside an iteration propagates
out of `forEach` and aborts the remaining elements. -/
def reloadMany (st : St) : List String → Nat →
    Except JsErr Unit × St × List ReloadTask
  | [], _ => (Except.ok (), st, [])
  | p :: ps, i =>
      match reloadOne st p (CbVal.num i) with
      | (.error e, st1, ts) => (Except.error e, st1, ts)
      | (.ok _, st1, ts) =>
          match reloadMany st1 ps (i + 1) with
          | (r, st2, ts2) => (r, st2, ts ++ ts2)

/-- Sequentially invoke the reload callback once per completion report of
`initAllPages` (the `complete` wrapper of part_000 lines 568-573 forwards
each report to the user callback unchanged). -/
def invokeAll (cb : CbVal) : St → List (Option JsErr) → Except JsErr Unit × St
  | st, [] => (Except.ok (), st)
  | st, c :: cs =>
      match invokeCb st cb c with
      | .ok st1 => invokeAll cb st1 cs
      | .error e => (Except.error e, st)

/-- `API.reloadStaticPage` (part_000 lines 557-618).  The listings feed the
no-argument branch's `initAllPages('static', complete)`; the string branch
dispatches a single task; the array branch is `reloadMany` starting at
index 0.  Note the provided callback `cb` is consulted only by the no-page
and single-string branches — the array branch hands each element its array
index instead and never touches `cb`. -/
def reloadStaticPage (st : St)
    (viewsListing partialsListing : Except JsErr (List FileEntry))
    (page : ReloadArg) (cb : CbVal) :
    Except JsErr Unit × St × List ReloadTask :=
  match page with
  | .many l => reloadMany st l 0
  | .one p => reloadOne st p cb
  | .noPage =>
      let r := initAllPages st.options .staticOnly st viewsListing partialsListing
      let r2 := invokeAll cb r.1 r.2
      (r2.1, r2.2, [])

/-- Completion of a pending reload task: the re-read content replaces the
entry (only after the read succeeds) and `complete` is invoked with `null`,
or the read error is forwarded to `complete`; either way invoking a numeric
callback value throws. -/
def runReloadTask (st : St) (readFile : String → Except JsErr String)
    (t : ReloadTask) : Except JsErr St :=
  match readFile (t.name ++ t.ext) with
  | .error e => invokeCb st t.cb (some e)
  | .ok content =>
      invokeCb
        (st.nsSet t.side t.name
          { producer := fun _ => Except.ok (JsVal.str content)
            type := .static
            ext := t.ext })
        t.cb none

/-! ### Concrete example states used by closed theorems -/

/-- A static `index` entry whose cached content is `"HOME"` (the result of
`initStaticPage` on an `index.html` containing `HOME`). -/
def sampleHome : Entry :=
  { producer := fun _ => Except.ok (JsVal.str "HOME"), type := .static, ext := ".html" }

/-- A dynamic entry whose producer throws (a dynamic page whose body raises). -/
def sampleBoom : Entry :=
  { producer := fun _ => Except.error (JsErr.error "boom"), type := .dynamic, ext := ".js" }

/-- A dynamic partial producing the content `"AOK"`. -/
def sampleA : Entry :=
  { producer := fun _ => Except.ok (JsVal.str "AOK"), type := .dynamic, ext := ".js" }

/-- A dynamic partial whose producer throws. -/
def sampleCThrow : Entry :=
  { producer := fun _ => Except.error (JsErr.error "boomP"), type := .dynamic, ext := ".js" }

/-- A ready part_000 instance whose views hold the static `index` page. -/
def stReady : St :=
  { St.fresh defaults with views := NsMap.empty.set "index" sampleHome, ready := true }

/-- A part_000 instance still initializing, with one serve call for `index`
(callback id 7) queued while `ready` was false. -/
def stQueue : St :=
  { St.fresh defaults with
    views := NsMap.empty.set "index" sampleHome
    serves := [⟨some "index", Ctx.plain Fields.empty, some 7⟩] }

/-- An initialized `src/index.js` instance: the static `index` page sits in
`views` under its prefixed key `getPages` produces (`"viewsindex"`). -/
def stIdx : St :=
  { St.fresh defaultsIdx with views := NsMap.empty.set "viewsindex" sampleHome, ready := true }

/-- A part_000 instance whose partials hold `a` (renders `"AOK"`) and `c`
(producer throws); `b` is absent. -/
def stParts : St :=
  { St.fresh defaults with
    partials := (NsMap.empty.set "a" sampleA).set "c" sampleCThrow }

/-- A part_000 instance whose views hold the static `index` page and the
throwing dynamic `boom` page. -/
def stViews : St :=
  { St.fresh defaults with
    views := (NsMap.empty.set "index" sampleHome).set "boom" sampleBoom }

/-- The state reached from a fresh instance after `initDynamicPage` loads a
dynamic views file `broken.js` whose module export is not callable. -/
def stBroken : St :=
  (initDynamicPage (St.fresh defaults) .views "broken" ".js" ModuleLoad.notCallable).1

/-- The entry `initDynamicPage` installs for a non-callable `foo.js`. -/
def sampleFooPlaceholder : Entry :=
  { producer := fun _ => Except.ok JsVal.undef, type := .dynamic, ext := ".js" }

/-- A fresh instance configured with `globalData: {}` (an actual empty
object, as the spec's documented default claims). -/
def stObjGlobal : St :=
  St.fresh { defaults with globalData := GVal.obj Fields.empty }

/-! ### Helper lemmas -/

/-- Binding fields not named by any segment are untouched. -/
theorem bindParts_not_mem : ∀ (segs html : List String) (m : Fields) (k : String),
    k ∉ segs → bindParts segs html m k = m k := by
  intro segs
  induction segs with
  | nil => intro html m k _; rfl
  | cons s ss ih =>
      intro html m k hk
      simp only [List.mem_cons, not_or] at hk
      cases html with
      | nil =>
          show bindParts ss [] (m.set s "") k = m k
          rw [ih [] (m.set s "") k hk.2]
          simp [Fields.set, hk.1]
      | cons h1 hs =>
          show bindParts ss hs (m.set s h1) k = m k
          rw [ih hs (m.set s h1) k hk.2]
          simp [Fields.set, hk.1]

/-- With pairwise-distinct segment names, the binding loop assigns the
`j`-th html part (or the empty string past the end of the html list) to the
`j`-th segment name. -/
theorem bindParts_get : ∀ (segs html : List String) (m : Fields) (j : Nat)
    (hj : j < segs.length), segs.Nodup →
    bindParts segs html m (segs.get ⟨j, hj⟩) = some (html.getD j "") := by
  intro segs
  induction segs with
  | nil => intro html m j hj _; exact absurd hj (by simp)
  | cons s ss ih =>
      intro html m j hj hnd
      rw [List.nodup_cons] at hnd
      cases j with
      | zero =>
          cases html with
          | nil =>
              show bindParts ss [] (m.set s "") s = some ([].getD 0 "")
              rw [bindParts_not_mem ss [] (m.set s "") s hnd.1]
              simp [Fields.set]
          | cons h1 hs =>
              show bindParts ss hs (m.set s h1) s = some ((h1 :: hs).getD 0 "")
              rw [bindParts_not_mem ss hs (m.set s h1) s hnd.1]
              simp [Fields.set]
      | succ j =>
          have hj2 : j < ss.length := Nat.lt_of_succ_lt_succ hj
          cases html with
          | nil =>
              show bindParts ss [] (m.set s "") (ss.get ⟨j, hj2⟩) = some ([].getD (j + 1) "")
              rw [ih [] (m.set s "") j hj2 hnd.2]
              simp
          | cons h1 hs =>
              show bindParts ss hs (m.set s h1) (ss.get ⟨j, hj2⟩)
                  = some ((h1 :: hs).getD (j + 1) "")
              rw [ih hs (m.set s h1) j hj2 hnd.2]
              simp

/-- A file's `fileComplete` argument is exactly its specification-side
failure account. -/
theorem initFile_snd (opts : Options) (ty : ScanType) (side : NSide) (st : St)
    (f : FileEntry) : (initFile opts ty side st f).2 = fileFailure opts ty f := by
  unfold initFile fileFailure
  by_cases h1 : ((ty == ScanType.staticOnly || ty == ScanType.all)
      && opts.staticExt.contains (jsReplaceFirst '.' f.ext)) = true
  · simp only [h1, if_true]
    cases hr : f.read <;> simp [initStaticPage, hr]
  · by_cases h2 : ((ty == ScanType.dynamicOnly || ty == ScanType.all)
        && opts.dynamicExt.contains (jsReplaceFirst '.' f.ext)) = true
    · simp only [h1, h2, if_true, if_false, Bool.false_eq_true]
      cases hl : f.load <;> simp [initDynamicPage, hl]
    · have h1p : ¬((ty = ScanType.staticOnly ∨ ty = ScanType.all)
          ∧ jsReplaceFirst '.' f.ext ∈ opts.staticExt) := by simpa using h1
      have h2p : ¬((ty = ScanType.dynamicOnly ∨ ty = ScanType.all)
          ∧ jsReplaceFirst '.' f.ext ∈ opts.dynamicExt) := by simpa using h2
      simp [h1p, h2p]

/-- The error reports and the completion counter of a directory listing
processing: the errors are the specification-side file failures, in order,
and every file reports exactly once (counter plus error count equals the
file count). -/
theorem scanFiles_spec (opts : Options) (ty : ScanType) (side : NSide) :
    ∀ (files : List FileEntry) (st : St),
      (scanFiles opts ty side st files).2.1 = files.filterMap (fileFailure opts ty) ∧
      (scanFiles opts ty side st files).2.2
          + ((scanFiles opts ty side st files).2.1).length = files.length := by
  intro files
  induction files with
  | nil => intro st; exact ⟨rfl, rfl⟩
  | cons f fs ih =>
      intro st
      have h2 := initFile_snd opts ty side st f
      obtain ⟨ih1, ih2⟩ := ih (initFile opts ty side st f).1
      cases hff : fileFailure opts ty f with
      | some e =>
          rw [hff] at h2
          simp only [scanFiles, h2, List.filterMap_cons, hff]
          refine ⟨by rw [ih1], ?_⟩
          simp only [List.length_cons]
          omega
      | none =>
          rw [hff] at h2
          simp only [scanFiles, h2, List.filterMap_cons, hff]
          refine ⟨ih1, ?_⟩
          simp only [List.length_cons]
          omega

/-- The errors a directory scan forwards to the overall callback are its
specification-side failures. -/
theorem scanDir_failures (opts : Options) (ty : ScanType) (side : NSide) (st : St)
    (listing : Except JsErr (List FileEntry)) :
    (scanDir opts ty side st listing).2.1 = dirFailures opts ty listing := by
  cases listing with
  | error e => rfl
  | ok files =>
      simp only [scanDir, dirFailures]
      exact (scanFiles_spec opts ty side files st).1

/-- A directory reports completion exactly when it contributed no failure. -/
theorem scanDir_done (opts : Options) (ty : ScanType) (side : NSide) (st : St)
    (listing : Except JsErr (List FileEntry)) :
    (scanDir opts ty side st listing).2.2 = true ↔ dirFailures opts ty listing = [] := by
  cases listing with
  | error e => simp [scanDir, dirFailures]
  | ok files =>
      obtain ⟨h1, h2⟩ := scanFiles_spec opts ty side files st
      simp only [scanDir, dirFailures, beq_iff_eq]
      rw [h1] at h2
      constructor
      · intro hc
        have : (files.filterMap (fileFailure opts ty)).length = 0 := by omega
        exact List.eq_nil_of_length_eq_zero this
      · intro hn
        rw [hn] at h2
        simpa using h2

/-- Same-side, same-key lookup after a namespace write. -/
theorem nsGet_nsSet_same (st : St) (side : NSide) (k : String) (e : Entry) :
    (st.nsSet side k e).nsGet side k = some e := by
  cases side <;> simp [St.nsSet, St.nsGet, NsMap.set]

/-! ### Claim theorems -/

/-- C1: evaluation of the code at the failing input.  With one serve call
queued while `ready` was false, the constructor's success callback (which
runs `serveAll()` and only then sets `ready = true`) fires no user callback
at all: each replayed call still observes `ready == false`, re-queues
itself (the queue doubles to length 2), and the queue is never drained
again.  By contrast, the same call issued directly against the ready
instance delivers the rendered page through its callback. -/
theorem claim_C1_queued_call_dropped :
    (initReadyCallback stQueue none).serveCbLog = [] ∧
    (initReadyCallback stQueue none).serves.length = 2 ∧
    (initReadyCallback stQueue none).ready = true ∧
    (serve { stQueue with ready := true } (some "index")
        (Ctx.plain Fields.empty) (some 7)).2.serveCbLog = [(7, JsVal.str "HOME")] := by
  refine ⟨by decide, by decide, by decide, by decide⟩

/-- C2 (amended): `loadPage` never throws; a missing page name sets the
error signal and returns the sentinel naming the page, a producer that
throws is caught with the error signal set and the sentinel naming the page
returned, and a producer that returns normally has its value — whatever JS
value it is, string or not — returned unchanged. -/
theorem claim_C2_loadPage_error_handling (st : St) (page : Option String)
    (data : Ctx) (lay : Bool) :
    (st.views (page.getD "index") = none →
      loadPage st page data lay =
        (JsVal.str ("The " ++ page.getD "index" ++ " page could not be found."),
          setError st (JsErr.error ("The " ++ page.getD "index" ++ " page could not be found.")))) ∧
    (∀ en e, st.views (page.getD "index") = some en →
      en.producer (if lay then data else createDataObject st data) = Except.error e →
      loadPage st page data lay =
        (JsVal.str ("An error has occurred within the dynamic " ++ page.getD "index" ++ " page."),
          setError st e)) ∧
    (∀ en v, st.views (page.getD "index") = some en →
      en.producer (if lay then data else createDataObject st data) = Except.ok v →
      loadPage st page data lay = (v, st)) := by
  refine ⟨?_, ?_, ?_⟩
  · intro hmiss
    simp [loadPage, hmiss]
  · intro en e hen hprod
    simp [loadPage, hen, hprod]
  · intro en v hen hprod
    simp [loadPage, hen, hprod]

/-- C2 witness: the three branches at concrete inputs. -/
theorem claim_C2_witness :
    loadPage stViews (some "nope") (Ctx.plain Fields.empty) false =
      (JsVal.str ("The " ++ "nope" ++ " page could not be found."),
        setError stViews (JsErr.error ("The " ++ "nope" ++ " page could not be found."))) ∧
    loadPage stViews (some "boom") (Ctx.plain Fields.empty) false =
      (JsVal.str ("An error has occurred within the dynamic " ++ "boom" ++ " page."),
        setError stViews (JsErr.error "boom")) ∧
    loadPage stViews (some "index") (Ctx.plain Fields.empty) false =
      (JsVal.str "HOME", stViews) := by
  refine
    ⟨(claim_C2_loadPage_error_handling stViews (some "nope") (Ctx.plain Fields.empty) false).1 rfl,
      (claim_C2_loadPage_error_handling stViews (some "boom") (Ctx.plain Fields.empty) false).2.1
        sampleBoom (JsErr.error "boom") rfl rfl,
      (claim_C2_loadPage_error_handling stViews (some "index") (Ctx.plain Fields.empty) false).2.2
        sampleHome (JsVal.str "HOME") rfl rfl⟩

/-- C2 counterexample: the claim's `render always returns a string` is
false — after `initDynamicPage` processes a non-callable dynamic module,
rendering that page returns `undefined` (the `() => {}` placeholder's
value), not a string. -/
theorem claim_C2_counterexample :
    (loadPage stBroken (some "broken") (Ctx.plain Fields.empty) false).1.isStr = false := by
  decide

/-- C3 (amended): the overall scan callback receives, in order, one error
per listing or file-initialization failure (so two or more failures invoke
it more than once), and a single success call exactly when there is no
failure, after both roots have reported completion; moreover every listed
file reports to its directory's completion accounting exactly once (counter
increments plus forwarded errors add up to the file count). -/
theorem claim_C3_scan_completion (opts : Options) (ty : ScanType) (st : St)
    (vL pL : Except JsErr (List FileEntry)) :
    (dirFailures opts ty vL ++ dirFailures opts ty pL = [] →
      (initAllPages opts ty st vL pL).2 = [none]) ∧
    (dirFailures opts ty vL ++ dirFailures opts ty pL ≠ [] →
      (initAllPages opts ty st vL pL).2
        = (dirFailures opts ty vL ++ dirFailures opts ty pL).map some) ∧
    (∀ (files : List FileEntry) (side : NSide) (st2 : St),
      (scanFiles opts ty side st2 files).2.2
          + ((scanFiles opts ty side st2 files).2.1).length = files.length) := by
  have hv := scanDir_failures opts ty .views st vL
  have hvdone := scanDir_done opts ty .views st vL
  have hp := scanDir_failures opts ty .partials (scanDir opts ty .views st vL).1 pL
  have hpdone := scanDir_done opts ty .partials (scanDir opts ty .views st vL).1 pL
  refine ⟨?_, ?_, ?_⟩
  · intro hnil
    rw [List.append_eq_nil] at hnil
    have hd1 : (scanDir opts ty .views st vL).2.2 = true := hvdone.mpr hnil.1
    have hd2 : (scanDir opts ty .partials (scanDir opts ty .views st vL).1 pL).2.2 = true :=
      hpdone.mpr hnil.2
    simp [initAllPages, hv, hp, hd1, hd2, hnil.1, hnil.2]
  · intro hne
    have hfalse : ((scanDir opts ty .views st vL).2.2
        && (scanDir opts ty .partials (scanDir opts ty .views st vL).1 pL).2.2) = false := by
      cases hb1 : (scanDir opts ty .views st vL).2.2 with
      | false => simp
      | true =>
          cases hb2 : (scanDir opts ty .partials (scanDir opts ty .views st vL).1 pL).2.2 with
          | false => simp
          | true =>
              exfalso
              exact hne (by rw [hvdone.mp hb1, hpdone.mp hb2]; rfl)
    simp [initAllPages, hv, hp, hfalse]
  · intro files side st2
    exact (scanFiles_spec opts ty side files st2).2

/-- C3 witness: a clean scan of two empty roots calls back exactly once
with success; a views-listing failure calls back with that error. -/
theorem claim_C3_witness :
    (initAllPages defaults .all (St.fresh defaults) (Except.ok []) (Except.ok [])).2
      = [none] ∧
    (initAllPages defaults .all (St.fresh defaults)
        (Except.error (JsErr.error "E1")) (Except.ok [])).2
      = (dirFailures defaults .all (Except.error (JsErr.error "E1"))
          ++ dirFailures defaults .all (Except.ok [])).map some := by
  refine
    ⟨(claim_C3_scan_completion defaults .all (St.fresh defaults)
        (Except.ok []) (Except.ok [])).1 (by decide),
      (claim_C3_scan_completion defaults .all (St.fresh defaults)
        (Except.error (JsErr.error "E1")) (Except.ok [])).2.1 (by decide)⟩

/-- C3 counterexample: the claim's `invoked exactly once` is false — when
both root listings fail, the overall callback is invoked twice, once per
listing error. -/
theorem claim_C3_counterexample :
    (initAllPages defaults .all (St.fresh defaults)
        (Except.error (JsErr.error "ENOENT views"))
        (Except.error (JsErr.error "ENOENT partials"))).2
      = [some (JsErr.error "ENOENT views"), some (JsErr.error "ENOENT partials")] ∧
    ((initAllPages defaults .all (St.fresh defaults)
        (Except.error (JsErr.error "ENOENT views"))
        (Except.error (JsErr.error "ENOENT partials"))).2).length ≠ 1 := by
  refine ⟨by decide, by decide⟩

/-- C4 (amended): a dynamic module that loads but does not export a callable
raises the Warning signal (the Error signal is untouched) and leaves the
entry present in its namespace with a placeholder producer — but that
placeholder is `() => {}`, which returns `undefined`, not the empty
string. -/
theorem claim_C4_noncallable_placeholder (st : St) (side : NSide) (name ext : String) :
    (initDynamicPage st side name ext ModuleLoad.notCallable).2 = none ∧
    (initDynamicPage st side name ext ModuleLoad.notCallable).1.warning
      = some ("The " ++ name ++ " dynamic page did not export a module to build the page content.") ∧
    (initDynamicPage st side name ext ModuleLoad.notCallable).1.error = st.error ∧
    ((initDynamicPage st side name ext ModuleLoad.notCallable).1.nsGet side name).isSome = true ∧
    (∀ en, (initDynamicPage st side name ext ModuleLoad.notCallable).1.nsGet side name = some en →
      en.type = .dynamic ∧ en.ext = ext ∧ ∀ c, en.producer c = Except.ok JsVal.undef) := by
  refine ⟨rfl, ?_, ?_, ?_, ?_⟩
  · cases side <;> rfl
  · cases side <;> rfl
  · rw [show (initDynamicPage st side name ext ModuleLoad.notCallable).1
        = (setWarning st ("The " ++ name ++ " dynamic page did not export a module to build the page content.")).nsSet
            side name
            { producer := fun _ => Except.ok JsVal.undef, type := .dynamic, ext := ext }
      from rfl]
    rw [nsGet_nsSet_same]
    rfl
  · intro en hen
    rw [show (initDynamicPage st side name ext ModuleLoad.notCallable).1
        = (setWarning st ("The " ++ name ++ " dynamic page did not export a module to build the page content.")).nsSet
            side name
            { producer := fun _ => Except.ok JsVal.undef, type := .dynamic, ext := ext }
      from rfl] at hen
    rw [nsGet_nsSet_same] at hen
    cases hen
    exact ⟨rfl, rfl, fun c => rfl⟩

/-- C4 witness: the non-callable branch at a concrete input. -/
theorem claim_C4_witness :
    (initDynamicPage (St.fresh defaults) .views "foo" ".js" ModuleLoad.notCallable).2 = none ∧
    (initDynamicPage (St.fresh defaults) .views "foo" ".js" ModuleLoad.notCallable).1.warning
      = some ("The " ++ "foo" ++ " dynamic page did not export a module to build the page content.") ∧
    sampleFooPlaceholder.producer (Ctx.plain Fields.empty) = Except.ok JsVal.undef := by
  refine
    ⟨(claim_C4_noncallable_placeholder (St.fresh defaults) .views "foo" ".js").1,
      (claim_C4_noncallable_placeholder (St.fresh defaults) .views "foo" ".js").2.1,
      ((claim_C4_noncallable_placeholder (St.fresh defaults) .views "foo" ".js").2.2.2.2
        sampleFooPlaceholder rfl).2.2 (Ctx.plain Fields.empty)⟩

/-- C4 counterexample: the claim's `placeholder producer that returns the
empty string` is false — the installed placeholder returns `undefined`. -/
theorem claim_C4_counterexample :
    (match (initDynamicPage (St.fresh defaults) .views "foo" ".js"
        ModuleLoad.notCallable).1.nsGet .views "foo" with
      | some en => en.producer (Ctx.plain Fields.empty)
      | none => Except.error (JsErr.error "absent")) = Except.ok JsVal.undef ∧
    (Except.ok JsVal.undef : Except JsErr JsVal) ≠ Except.ok (JsVal.str "") := by
  refine ⟨rfl, by decide⟩

/-- C5 (amended): the array form of `includePartial` runs the single-name
resolution once per element in order — an element's failure only sets the
error signal and never aborts the processing of later siblings (the state
effects of a split of the list compose) — but it discards every element's
rendered content and returns `undefined`; only the single-name form returns
content, with a miss or a throwing producer yielding the empty string plus
the error signal. -/
theorem claim_C5_include_independent (st : St) (data : Ctx) :
    (∀ l, includePartial st (.many l) data
        = (JsVal.undef, l.foldl (fun s p => (includePartialOne s p data).2) st)) ∧
    (∀ l1 l2, (includePartial st (.many (l1 ++ l2)) data).2
        = (includePartial (includePartial st (.many l1) data).2 (.many l2) data).2) ∧
    (∀ p, st.partials p = none →
      includePartial st (.one p) data
        = (JsVal.str "",
            setError st (JsErr.error ("Could not find the " ++ p ++ " include file.")))) ∧
    (∀ p en e, st.partials p = some en → en.producer data = Except.error e →
      includePartial st (.one p) data = (JsVal.str "", setError st e)) ∧
    (∀ p en v, st.partials p = some en → en.producer data = Except.ok v →
      includePartial st (.one p) data = (v, st)) := by
  refine ⟨fun l => rfl, ?_, ?_, ?_, ?_⟩
  · intro l1 l2
    simp [includePartial, List.foldl_append]
  · intro p hmiss
    simp [includePartial, includePartialOne, hmiss]
  · intro p en e hen hprod
    simp [includePartial, includePartialOne, hen, hprod]
  · intro p en v hen hprod
    simp [includePartial, includePartialOne, hen, hprod]

/-- C5 witness: the branches at concrete inputs over `stParts` (partial `a`
renders `"AOK"`, partial `c` throws, `b` is absent). -/
theorem claim_C5_witness :
    includePartial stParts (.many ["a", "b"]) (Ctx.plain Fields.empty)
      = (JsVal.undef,
          ["a", "b"].foldl
            (fun s p => (includePartialOne s p (Ctx.plain Fields.empty)).2) stParts) ∧
    includePartial stParts (.one "a") (Ctx.plain Fields.empty) = (JsVal.str "AOK", stParts) ∧
    includePartial stParts (.one "b") (Ctx.plain Fields.empty)
      = (JsVal.str "",
          setError stParts (JsErr.error ("Could not find the " ++ "b" ++ " include file."))) ∧
    includePartial stParts (.one "c") (Ctx.plain Fields.empty)
      = (JsVal.str "", setError stParts (JsErr.error "boomP")) := by
  refine
    ⟨(claim_C5_include_independent stParts (Ctx.plain Fields.empty)).1 ["a", "b"],
      (claim_C5_include_independent stParts (Ctx.plain Fields.empty)).2.2.2.2
        "a" sampleA (JsVal.str "AOK") rfl rfl,
      (claim_C5_include_independent stParts (Ctx.plain Fields.empty)).2.2.1 "b" rfl,
      (claim_C5_include_independent stParts (Ctx.plain Fields.empty)).2.2.2.1
        "c" sampleCThrow (JsErr.error "boomP") rfl rfl⟩

/-- C5 counterexample: the claim's `the result contains the rendered
content of every existing partial` is false for the array form — with
partial `a` present and `b` absent, the call's result is `undefined` (no
string at all, in particular not one containing `a`'s content `"AOK"`);
the error signal does reflect `b`'s absence and the single-name form does
return `a`'s content. -/
theorem claim_C5_counterexample :
    (includePartial stParts (.many ["a", "b"]) (Ctx.plain Fields.empty)).1 = JsVal.undef ∧
    ((includePartial stParts (.many ["a", "b"]) (Ctx.plain Fields.empty)).1).isStr = false ∧
    (includePartial stParts (.many ["a", "b"]) (Ctx.plain Fields.empty)).2.error
      = some (JsErr.error "Could not find the b include file.") ∧
    (includePartial stParts (.one "a") (Ctx.plain Fields.empty)).1 = JsVal.str "AOK" := by
  refine ⟨by decide, by decide, by decide, by decide⟩

/-- C6 (amended): a nonempty `layoutSpec` — even one whose leading segment
is empty — always takes the binding branch: html part `j` (or `""` when
absent) is bound to the field named by segment `j + 1` (for
pairwise-distinct segment names), those bindings are merged over the
context's fields leaving all other fields unchanged, and the first segment
is rendered via `loadPage` with `layout = true`, bypassing
`createDataObject`; the html array is returned unchanged exactly when
`layoutSpec` is the empty string. -/
theorem claim_C6_layout_binding (st : St) (data : Ctx) (page : String)
    (html : List String) :
    (page = "" → layout st data page html = (LayoutRet.parts html, st)) ∧
    (page ≠ "" →
      layout st data page html =
        (LayoutRet.val (loadPage st (some ((jsSplit ':' page).headD ""))
            (layoutCtx data page html) true).1,
          (loadPage st (some ((jsSplit ':' page).headD ""))
            (layoutCtx data page html) true).2)) ∧
    ((jsSplit ':' page).tail.Nodup →
      ∀ j (hj : j < (jsSplit ':' page).tail.length),
        (layoutCtx data page html).fields ((jsSplit ':' page).tail.get ⟨j, hj⟩)
          = some (html.getD j "")) ∧
    (∀ k, k ∉ (jsSplit ':' page).tail →
      (layoutCtx data page html).fields k = data.fields k) := by
  refine ⟨?_, ?_, ?_, ?_⟩
  · intro h
    simp [layout, h]
  · intro h
    simp [layout, h]
  · intro hnd j hj
    have hb := bindParts_get ((jsSplit ':' page).tail) html Fields.empty j hj hnd
    simp only [layoutCtx, Fields.assign]
    rw [hb]
  · intro k hk
    have hb := bindParts_not_mem ((jsSplit ':' page).tail) html Fields.empty k hk
    simp only [layoutCtx, Fields.assign]
    rw [hb]
    rfl

/-- C6 witness: `layout(ctx, "layout:body", ["<p>hi</p>"])` renders the
`layout` page with `body` bound to the html part, and the empty spec
returns the html array unchanged. -/
theorem claim_C6_witness :
    layout stReady (Ctx.plain Fields.empty) "" ["x"]
      = (LayoutRet.parts ["x"], stReady) ∧
    (layoutCtx (Ctx.plain Fields.empty) "layout:body" ["<p>hi</p>"]).fields "body"
      = some "<p>hi</p>" ∧
    layout stReady (Ctx.plain Fields.empty) "layout:body" ["<p>hi</p>"]
      = (LayoutRet.val (loadPage stReady (some ((jsSplit ':' "layout:body").headD ""))
            (layoutCtx (Ctx.plain Fields.empty) "layout:body" ["<p>hi</p>"]) true).1,
          (loadPage stReady (some ((jsSplit ':' "layout:body").headD ""))
            (layoutCtx (Ctx.plain Fields.empty) "layout:body" ["<p>hi</p>"]) true).2) := by
  refine
    ⟨(claim_C6_layout_binding stReady (Ctx.plain Fields.empty) "" ["x"]).1 rfl,
      (claim_C6_layout_binding stReady (Ctx.plain Fields.empty) "layout:body"
          ["<p>hi</p>"]).2.2.1 (by decide) 0 (by decide),
      (claim_C6_layout_binding stReady (Ctx.plain Fields.empty) "layout:body"
          ["<p>hi</p>"]).2.1 (by decide)⟩

/-- C6 counterexample: the claim's `if layoutSpec has no leading name
segment, layout returns htmlParts unchanged` is false — for the spec
`":x"` the leading segment is empty (no name), yet the html array is not
returned: the binding branch runs and renders the page named `""`, which
yields the not-found sentinel. -/
theorem claim_C6_counterexample :
    (jsSplit ':' ":x").headD "" = "" ∧
    (layout (St.fresh defaults) (Ctx.plain Fields.empty) ":x" ["h"]).1
      ≠ LayoutRet.parts ["h"] ∧
    (layout (St.fresh defaults) (Ctx.plain Fields.empty) ":x" ["h"]).1
      = LayoutRet.val (JsVal.str "The  page could not be found.") := by
  refine ⟨by decide, by decide, by decide⟩

/-- C7 (amended): when `globalData` is configured as an object (which the
actual default `''` is not), `updateGlobalData({k: v})` is visible as
`global.k == v` in the data context `createDataObject` builds for every
subsequent render, with no reload involved. -/
theorem claim_C7_updateGlobalData_visible (st : St) (f : Fields) (k v : String)
    (d : Ctx) (h : st.options.globalData = GVal.obj f) :
    Ctx.globalField
      (createDataObject (updateGlobalData st (Fields.set Fields.empty k v)) d) k
      = some v := by
  simp [updateGlobalData, h, createDataObject, Ctx.globalField, GVal.getField,
    Fields.assign, Fields.set]

/-- C7 witness: the update is visible at a concrete object-configured
instance. -/
theorem claim_C7_witness :
    Ctx.globalField
      (createDataObject (updateGlobalData stObjGlobal (Fields.set Fields.empty "k" "v"))
        (Ctx.plain Fields.empty)) "k" = some "v" :=
  claim_C7_updateGlobalData_visible stObjGlobal Fields.empty "k" "v"
    (Ctx.plain Fields.empty) rfl

/-- C7 counterexample: under the default configuration the claim is false —
`globalData` defaults to the empty string `''`, `Object.assign` onto that
primitive mutates a discarded temporary wrapper, so after
`updateGlobalData({k: "v"})` a subsequent render's context still has no
`global.k` (and the stored global value is unchanged). -/
theorem claim_C7_counterexample :
    Ctx.globalField
      (createDataObject (updateGlobalData (St.fresh defaults) (Fields.set Fields.empty "k" "v"))
        (Ctx.plain Fields.empty)) "k" = none ∧
    (updateGlobalData (St.fresh defaults)
        (Fields.set Fields.empty "k" "v")).options.globalData.getField "k" = none ∧
    (none : Option String) ≠ some "v" := by
  refine ⟨by decide, by decide, by decide⟩

/-- C8: evaluation of the code at the failing input.  With `"nope"` never
initialized and `"index"` a cached static view, the list call
`reloadStaticPage(["nope", "index"], cb)` throws a `TypeError`
synchronously: `forEach` hands each element's array index (here `0`) to the
recursive call as its callback, so completing `"nope"` invokes the number
`0`; the thrown error aborts the loop before `"index"` is attempted (no
re-read task is dispatched) and the provided callback is never invoked.  A
single-name call on the same state does dispatch the re-read. -/
theorem claim_C8_reload_list_broken :
    (reloadStaticPage stReady (Except.ok []) (Except.ok [])
        (.many ["nope", "index"]) (CbVal.fn 9)).1
      = Except.error (JsErr.typeError "callback is not a function") ∧
    (reloadStaticPage stReady (Except.ok []) (Except.ok [])
        (.many ["nope", "index"]) (CbVal.fn 9)).2.2 = ([] : List ReloadTask) ∧
    (reloadStaticPage stReady (Except.ok []) (Except.ok [])
        (.many ["nope", "index"]) (CbVal.fn 9)).2.1.reloadCbLog = [] ∧
    (reloadStaticPage stReady (Except.ok []) (Except.ok [])
        (.one "index") (CbVal.fn 9)).2.2
      = [⟨NSide.views, "index", ".html", CbVal.fn 9⟩] := by
  refine ⟨by decide, by decide, by decide, by decide⟩

/-- C9: evaluation of the code at the failing input.  In the `src/index.js`
snapshot, `serve` unconditionally invokes its callback: the callback shape
delivers the rendered string, but the direct-return shape
`serve("index", data)` throws a `TypeError` instead of returning the
string.  The part_000 snapshot honors both shapes once ready. -/
theorem claim_C9_serve_shapes :
    (serveIdx stIdx (some "index") (Ctx.plain Fields.empty) none).1
      = Except.error (JsErr.typeError "callback is not a function") ∧
    (serveIdx stIdx (some "index") (Ctx.plain Fields.empty) (some 3)).2.serveCbLog
      = [(3, JsVal.str "HOME")] ∧
    (serve stReady (some "index") (Ctx.plain Fields.empty) none).1
      = ServeRet.strv (JsVal.str "HOME") ∧
    (serve stReady (some "index") (Ctx.plain Fields.empty) (some 3)).2.serveCbLog
      = [(3, JsVal.str "HOME")] := by
  refine ⟨by decide, by decide, by decide, by decide⟩

/-- C10: an omitted or `undefined` page argument defaults to `"index"`:
`loadPage` behaves identically on `none` and on `some "index"`, and so
does a ready instance's `serve` for either call shape. -/
theorem claim_C10_default_index (st : St) (d : Ctx) (lay : Bool) (cb : Option Nat)
    (h : st.ready = true) :
    loadPage st none d lay = loadPage st (some "index") d lay ∧
    serve st none d cb = serve st (some "index") d cb := by
  refine ⟨rfl, ?_⟩
  have hl : loadPage st none d false = loadPage st (some "index") d false := rfl
  simp [serve, h, hl]

/-- C10 witness: the default at a concrete ready instance. -/
theorem claim_C10_witness :
    serve stReady none (Ctx.plain Fields.empty) (some 1)
      = serve stReady (some "index") (Ctx.plain Fields.empty) (some 1) :=
  (claim_C10_default_index stReady (Ctx.plain Fields.empty) false (some 1) rfl).2

end Servelet
